import Mathlib

/-!
Shallow embedding of the SolarSystem repository (src/SolarSystem) for
verification of its specification claims.

Conventions of the embedding:
* Python floats are modelled as rationals (ℚ).  Decimal literals of the
  source are written with `mkRat` (e.g. the source's `0.38` is
  `mkRat 38 100`) because `mkRat` values evaluate inside the kernel.
* A Python planet dictionary is a `PlanetSpec` record whose required keys
  are `Option`-valued: `none` models an absent key, `planet.get(k, d)` is
  `Option.getD`, and `planet[k]` on a dict whose key is known to be
  present is `Option.getD` with an arbitrary default.
* `str.lower()` / `str.endswith(s)` are modelled character-wise on
  `String.data` (`strToLower` / `strEndsWith`).
-/

namespace SolarSystem

/-- Python `s.lower()` on the strings used here (ASCII file names). -/
def strToLower (s : String) : String := String.mk (s.data.map Char.toLower)

/-- Python `s.endswith(suffix)`. -/
def strEndsWith (s suffix : String) : Bool := suffix.data.isSuffixOf s.data

/-- One entry of `constants.PLANETS`: a Python dict with the seven required
keys and the optional `parent` key.  A `none` field models an absent key. -/
structure PlanetSpec where
  name : Option String := none
  orbit_au : Option ℚ := none
  size_scale : Option ℚ := none
  year_factor : Option ℚ := none
  day_factor : Option ℚ := none
  texture : Option String := none
  has_orbit : Option Bool := none
  parent : Option String := none
deriving DecidableEq, Inhabited

/-- `planet["name"]` for a dict whose `name` key is present. -/
def planetName (p : PlanetSpec) : String := p.name.getD ""

/-- `constants.PLANETS`: the built-in seven-body table.  Decimal literals of
the source are written with `mkRat` (0.38 = `mkRat 38 100`, and so on). -/
def PLANETS : List PlanetSpec := [
  { name := some "sun", orbit_au := some 0, size_scale := some 2,
    year_factor := some 0, day_factor := some 20,
    texture := some "sun_1k_tex.jpg", has_orbit := some false },
  { name := some "mercury", orbit_au := some (mkRat 38 100),
    size_scale := some (mkRat 385 1000), year_factor := some (mkRat 241 1000),
    day_factor := some 59, texture := some "mercury_1k_tex.jpg",
    has_orbit := some true },
  { name := some "venus", orbit_au := some (mkRat 72 100),
    size_scale := some (mkRat 923 1000), year_factor := some (mkRat 615 1000),
    day_factor := some 243, texture := some "venus_1k_tex.jpg",
    has_orbit := some true },
  { name := some "earth", orbit_au := some 1, size_scale := some 1,
    year_factor := some 1, day_factor := some 1,
    texture := some "earth_1k_tex.jpg", has_orbit := some true },
  { name := some "moon", orbit_au := some (mkRat 1 10),
    size_scale := some (mkRat 1 10), year_factor := some (mkRat 749 10000),
    day_factor := some (mkRat 749 10000), texture := some "moon_1k_tex.jpg",
    has_orbit := some true, parent := some "earth" },
  { name := some "mars", orbit_au := some (mkRat 152 100),
    size_scale := some (mkRat 515 1000), year_factor := some (mkRat 1881 1000),
    day_factor := some (mkRat 103 100), texture := some "mars_1k_tex.jpg",
    has_orbit := some true },
  { name := some "jupiter", orbit_au := some 2,
    size_scale := some (mkRat 923 1000), year_factor := some 3,
    day_factor := some 23, texture := some "jupiter.jpg",
    has_orbit := some true }]

/-- The animation-key list `constants._generate_planet_animations` builds for
one planet: always `<name>Day`, plus `<name>Orbit` when
`planet.get("has_orbit", True) and planet.get("orbit_au", 0) > 0`. -/
def animKeys (p : PlanetSpec) : List String :=
  let n := planetName p
  if p.has_orbit.getD true = true ∧ p.orbit_au.getD 0 > 0 then
    [n ++ "Day", n ++ "Orbit"]
  else
    [n ++ "Day"]

/-- `constants._generate_planet_animations()`: the name → animation-key table
derived from a planet list (a Python dict in insertion order). -/
def generatePlanetAnimations (ps : List PlanetSpec) : List (String × List String) :=
  ps.map (fun p => (planetName p, animKeys p))

/-- `constants.PLANET_ANIMATIONS`, derived from `PLANETS` at import time. -/
def PLANET_ANIMATIONS : List (String × List String) :=
  generatePlanetAnimations PLANETS

/-- `ActionHandler.PLANET_ANIMATIONS`: the table hardcoded as a class
attribute in `ActionHandler.py`, transcribed literally. -/
def handlerPlanetAnimations : List (String × List String) := [
  ("sun", ["sunDay"]),
  ("mercury", ["mercuryDay", "mercuryOrbit"]),
  ("venus", ["venusDay", "venusOrbit"]),
  ("earth", ["earthDay", "earthOrbit"]),
  ("moon", ["moonDay", "moonOrbit"]),
  ("mars", ["marsDay", "marsOrbit"]),
  ("jupiter", ["jupiterDay", "jupiterOrbit"])]

/-- The texture-extension test of `validate_planet_configuration`:
`planet["texture"].lower().endswith(('.jpg', '.png', '.jpeg'))`. -/
def textureOk (s : String) : Bool :=
  strEndsWith (strToLower s) ".jpg" || strEndsWith (strToLower s) ".png" ||
    strEndsWith (strToLower s) ".jpeg"

/-- The required-field scan of `validate_planet_configuration`: the first
field of `required_fields` missing from the dict, if any (the source raises
on it). -/
def missingField (p : PlanetSpec) : Option String :=
  if p.name.isNone then some "name"
  else if p.orbit_au.isNone then some "orbit_au"
  else if p.size_scale.isNone then some "size_scale"
  else if p.year_factor.isNone then some "year_factor"
  else if p.day_factor.isNone then some "day_factor"
  else if p.texture.isNone then some "texture"
  else if p.has_orbit.isNone then some "has_orbit"
  else none

/-- The per-planet loop body of `constants.validate_planet_configuration`,
with `seen` playing the role of the `planet_names` set accumulated over the
earlier entries.  Mirrors the source's check order: required fields,
duplicate name, parent reference (checked against `planet_names` after the
current planet's name was added to it), `size_scale <= 0`, `orbit_au < 0`,
texture extension.  A raised `ValueError` is `Except.error` with the
message's fixed part. -/
def checkPlanet (seen : List String) (p : PlanetSpec) : Except String Unit :=
  match missingField p with
  | some f => Except.error ("Planet missing required field: " ++ f)
  | none =>
    let n := planetName p
    if n ∈ seen then Except.error ("Duplicate planet name found: " ++ n)
    else
      let parentOk : Bool :=
        match p.parent with
        | some q => decide (q ∈ seen ++ [n])
        | none => true
      if parentOk = false then
        Except.error ("Planet " ++ n ++ " has parent " ++ p.parent.getD "" ++
          " which is not defined or appears later in PLANETS list")
      else if p.size_scale.getD 0 ≤ 0 then
        Except.error ("Planet " ++ n ++ " has invalid size_scale")
      else if p.orbit_au.getD 0 < 0 then
        Except.error ("Planet " ++ n ++ " has invalid orbit_au")
      else if textureOk (p.texture.getD "") = false then
        Except.error ("Planet " ++ n ++ " has texture without image extension")
      else Except.ok ()

/-- The loop of `constants.validate_planet_configuration` over the planet
list, accumulating the `planet_names` set. -/
def validateAux (seen : List String) : List PlanetSpec → Except String Bool
  | [] => Except.ok true
  | p :: rest =>
    match checkPlanet seen p with
    | Except.error e => Except.error e
    | Except.ok _ => validateAux (seen ++ [planetName p]) rest

/-- `constants.validate_planet_configuration()` run on an arbitrary planet
list (the source reads the module-level `PLANETS`). -/
def validatePlanets (ps : List PlanetSpec) : Except String Bool :=
  validateAux [] ps

deriving instance DecidableEq for Except

/-- The declarative per-planet acceptance condition: all required fields
present, positive `size_scale`, non-negative `orbit_au`, recognized texture
extension. -/
def planetFieldsOk (p : PlanetSpec) : Prop :=
  missingField p = none ∧ 0 < p.size_scale.getD 0 ∧ 0 ≤ p.orbit_au.getD 0 ∧
    textureOk (p.texture.getD "") = true

instance (p : PlanetSpec) : Decidable (planetFieldsOk p) := by
  unfold planetFieldsOk; infer_instance

/-- The names of a planet list, in order. -/
def namesOf (ps : List PlanetSpec) : List String := ps.map planetName

/-- No planet of the list reuses a name from `seen` or from an earlier
entry of the list. -/
def NamesFreshFrom : List String → List PlanetSpec → Prop
  | _, [] => True
  | seen, p :: rest =>
    planetName p ∉ seen ∧ NamesFreshFrom (seen ++ [planetName p]) rest

/-- Every `parent` reference of the list resolves into `seen`, into an
earlier entry's name, or into the referring planet's own name. -/
def ParentsOkFrom : List String → List PlanetSpec → Prop
  | _, [] => True
  | seen, p :: rest =>
    (∀ q, p.parent = some q → q ∈ seen ++ [planetName p]) ∧
      ParentsOkFrom (seen ++ [planetName p]) rest

theorem checkPlanet_ok_iff (seen : List String) (p : PlanetSpec) :
    checkPlanet seen p = Except.ok () ↔
      planetFieldsOk p ∧ planetName p ∉ seen ∧
        (∀ q, p.parent = some q → q ∈ seen ++ [planetName p]) := by
  unfold checkPlanet
  cases hmf : missingField p with
  | some f => simp [hmf, planetFieldsOk]
  | none =>
    by_cases hn : planetName p ∈ seen
    · simp [hn, planetFieldsOk, hmf]
    · cases hq : p.parent with
      | none =>
        simp only [hq, hn, if_false]
        split_ifs with h1 h2 h3 <;>
          simp_all [planetFieldsOk, not_le, not_lt]
      | some q =>
        by_cases hmem : q ∈ seen ++ [planetName p]
        · simp only [hq, hn, if_false]
          split_ifs with h0 h1 h2 h3 <;>
            simp_all [planetFieldsOk, not_le, not_lt]
        · simp [hq, hn, hmem, planetFieldsOk]
          intro _ _ _ _
          simpa using hmem

theorem validateAux_ok_iff (ps : List PlanetSpec) : ∀ seen : List String,
    validateAux seen ps = Except.ok true ↔
      (∀ p ∈ ps, planetFieldsOk p) ∧ NamesFreshFrom seen ps ∧
        ParentsOkFrom seen ps := by
  induction ps with
  | nil => intro seen; simp [validateAux, NamesFreshFrom, ParentsOkFrom]
  | cons p rest ih =>
    intro seen
    unfold validateAux
    cases hc : checkPlanet seen p with
    | error e =>
      have hne : ¬(planetFieldsOk p ∧ planetName p ∉ seen ∧
          (∀ q, p.parent = some q → q ∈ seen ++ [planetName p])) := by
        intro hcontra
        have := (checkPlanet_ok_iff seen p).mpr hcontra
        rw [hc] at this
        exact Except.noConfusion this
      simp only [NamesFreshFrom, ParentsOkFrom, List.forall_mem_cons]
      constructor
      · intro h; exact Except.noConfusion h
      · rintro ⟨⟨hf, _⟩, ⟨hfresh, _⟩, hpar, _⟩
        exact absurd ⟨hf, hfresh, hpar⟩ hne
    | ok u =>
      cases u
      have hok := (checkPlanet_ok_iff seen p).mp hc
      rw [ih (seen ++ [planetName p])]
      simp only [NamesFreshFrom, ParentsOkFrom, List.forall_mem_cons]
      constructor
      · rintro ⟨hf, hfr, hpo⟩
        exact ⟨⟨hok.1, hf⟩, ⟨hok.2.1, hfr⟩, ⟨hok.2.2, hpo⟩⟩
      · rintro ⟨⟨_, hf⟩, ⟨_, hfr⟩, _, hpo⟩
        exact ⟨hf, hfr, hpo⟩

theorem namesFreshFrom_iff (ps : List PlanetSpec) : ∀ seen : List String,
    NamesFreshFrom seen ps ↔
      (∀ n ∈ namesOf ps, n ∉ seen) ∧ (namesOf ps).Nodup := by
  induction ps with
  | nil => intro seen; simp [NamesFreshFrom, namesOf]
  | cons p rest ih =>
    intro seen
    simp only [NamesFreshFrom, namesOf, List.map_cons, List.nodup_cons,
      List.forall_mem_cons]
    rw [ih (seen ++ [planetName p])]
    constructor
    · rintro ⟨hnp, hall, hnd⟩
      refine ⟨⟨hnp, fun n hn => ?_⟩, ?_, hnd⟩
      · have := hall n hn
        simp [List.mem_append] at this
        exact this.1
      · intro hmem
        have := hall _ hmem
        simp [List.mem_append] at this
    · rintro ⟨⟨hnp, hall⟩, hnotin, hnd⟩
      refine ⟨hnp, fun n hn => ?_, hnd⟩
      simp only [List.mem_append, List.mem_singleton]
      rintro (hn' | he)
      · exact hall n hn hn'
      · exact hnotin (he ▸ hn)

theorem parentsOkFrom_iff (ps : List PlanetSpec) : ∀ seen : List String,
    ParentsOkFrom seen ps ↔
      ∀ i q, i < ps.length → (ps.getD i default).parent = some q →
        q ∈ seen ++ namesOf (ps.take (i + 1)) := by
  induction ps with
  | nil => intro seen; simp [ParentsOkFrom]
  | cons p rest ih =>
    intro seen
    simp only [ParentsOkFrom]
    rw [ih (seen ++ [planetName p])]
    constructor
    · rintro ⟨hhead, htail⟩ i q hi hq
      cases i with
      | zero =>
        have := hhead q (by simpa using hq)
        simpa [namesOf] using this
      | succ j =>
        have hj : j < rest.length := by simpa using hi
        have := htail j q hj (by simpa using hq)
        simp only [List.take_succ_cons, namesOf, List.map_cons, List.mem_append,
          List.mem_cons] at this ⊢
        tauto
    · intro h
      constructor
      · intro q hq
        have := h 0 q (by simp) (by simpa using hq)
        simpa [namesOf, List.mem_append] using this
      · intro j q hj hq
        have := h (j + 1) q (by simpa using hj) (by simpa using hq)
        simp only [List.take_succ_cons, namesOf, List.map_cons, List.mem_append,
          List.mem_cons] at this ⊢
        tauto

/-- A single planet dict that names itself as its own parent but satisfies
every other check. -/
def selfParentSpec : PlanetSpec :=
  { name := some "ouro", orbit_au := some 1, size_scale := some 1,
    year_factor := some 1, day_factor := some 1, texture := some "ouro.jpg",
    has_orbit := some true, parent := some "ouro" }

/-- Claim C2 (counterexample): the claim says validation rejects every list
containing a body whose parent name does not appear earlier in the list;
but `validate_planet_configuration` adds the current body's name to
`planet_names` before checking its `parent`, so a body that is its own
parent — whose parent name appears nowhere earlier in the list — is
accepted. -/
theorem self_parent_accepted :
    validatePlanets [selfParentSpec] = Except.ok true ∧
    selfParentSpec.parent = some "ouro" ∧
    "ouro" ∉ namesOf (List.take 0 [selfParentSpec]) := by
  decide

/-- Claim C2 (amended): validation accepts a planet list exactly when every
entry has all required fields, a positive `size_scale`, a non-negative
`orbit_au` and a recognized texture extension, the names are pairwise
distinct, and every `parent` reference names a body at the same or an
earlier position in the list (the body's own name is accepted because the
validator records it before checking the parent).  In particular each of
the listed violations — duplicate name, parent appearing neither earlier
nor as the body's own name, `size_scale <= 0`, `orbit_au < 0`, bad texture
extension — independently makes validation fail. -/
theorem validate_ok_iff : ∀ ps : List PlanetSpec,
    validatePlanets ps = Except.ok true ↔
      ((∀ p ∈ ps, planetFieldsOk p) ∧ (namesOf ps).Nodup ∧
        ∀ i q, i < ps.length → (ps.getD i default).parent = some q →
          q ∈ namesOf (ps.take (i + 1))) := by
  intro ps
  unfold validatePlanets
  rw [validateAux_ok_iff, namesFreshFrom_iff, parentsOkFrom_iff]
  simp

/-- Claim C1: in the derived animation-key table, every configured planet's
name maps to a key list containing `<name>Day`, and containing
`<name>Orbit` exactly when the entry's `has_orbit` is true and its
`orbit_au` is strictly positive; the sun gets only `sunDay`, earth gets
`earthDay` and `earthOrbit`. -/
theorem planet_animations_day_and_orbit_keys :
    (∀ p ∈ PLANETS,
        (planetName p ++ "Day") ∈
            (List.lookup (planetName p) PLANET_ANIMATIONS).getD [] ∧
        ((planetName p ++ "Orbit") ∈
              (List.lookup (planetName p) PLANET_ANIMATIONS).getD [] ↔
          p.has_orbit.getD true = true ∧ p.orbit_au.getD 0 > 0)) ∧
    (List.lookup "sun" PLANET_ANIMATIONS).getD [] = ["sunDay"] ∧
    (List.lookup "earth" PLANET_ANIMATIONS).getD [] =
      ["earthDay", "earthOrbit"] := by
  decide

/-- Claim C9: the animation-key table hardcoded as the
`ActionHandler.PLANET_ANIMATIONS` class attribute coincides, name for name
and key list for key list, with the table `constants.PLANET_ANIMATIONS`
derived by `_generate_planet_animations` from the built-in `PLANETS`
list. -/
theorem handler_table_matches_derived_table :
    handlerPlanetAnimations = generatePlanetAnimations PLANETS := by
  decide

/-! ### ActionHandler: play-rate control (`ActionHandler.py`) -/

/-- Every animation key the Action Handler iterates over: the values of its
own `PLANET_ANIMATIONS` class attribute, flattened.  After the standard
load these are exactly the keys present in `cbAttDic`, so the `key in
self.cbAttDic` guard of the source is the `k ∈ allAnimationKeys` test
here. -/
def allAnimationKeys : List String := (handlerPlanetAnimations.map Prod.snd).flatten

/-- The Action Handler state the speed keys touch: the animation play-rate
map `cbAttDic` (each interval's `getPlayRate`/`setPlayRate`) and the
on-screen speed text. -/
structure HandlerState where
  rates : String → ℚ
  speedText : String

/-- `ActionHandler._set_all_play_rates(rate)`. -/
def setAllPlayRates (r : ℚ) (st : HandlerState) : HandlerState :=
  { st with rates := fun k => if k ∈ allAnimationKeys then r else st.rates k }

/-- `ActionHandler._adjust_all_play_rates(delta)`. -/
def adjustAllPlayRates (d : ℚ) (st : HandlerState) : HandlerState :=
  { st with rates := fun k => if k ∈ allAnimationKeys then st.rates k + d else st.rates k }

/-- `ActionHandler._get_current_speed()`: the sun's day-rotation rate. -/
def getCurrentSpeed (st : HandlerState) : ℚ := st.rates "sunDay"

/-- The text `_update_speed_display` writes for speed value `r`. -/
def speedReadout (r : ℚ) : String := "Speed x " ++ toString r

/-- `ActionHandler._update_speed_display()`. -/
def updateSpeedDisplay (st : HandlerState) : HandlerState :=
  { st with speedText := speedReadout (getCurrentSpeed st) }

/-- `ActionHandler._speed_up()`. -/
def speedUp (st : HandlerState) : HandlerState :=
  updateSpeedDisplay
    (if getCurrentSpeed st = -1 then setAllPlayRates 1 st
     else adjustAllPlayRates 1 st)

/-- `ActionHandler._slow_down()`. -/
def slowDown (st : HandlerState) : HandlerState :=
  updateSpeedDisplay
    (if getCurrentSpeed st = 1 then setAllPlayRates (-1) st
     else adjustAllPlayRates (-1) st)

/-- The `earth_moon_keys` list of `ActionHandler._unlimit`. -/
def unlimitKeys : List String := ["earthOrbit", "earthDay", "moonOrbit", "moonDay"]

/-- `ActionHandler._unlimit()`: add 100 to the rate of each earth/moon
animation. -/
def unlimit (st : HandlerState) : HandlerState :=
  { st with rates := fun k => if k ∈ unlimitKeys then st.rates k + 100 else st.rates k }

/-- Claim C3: with the current rate read from the sun's day animation,
speed-up jumps every animation's rate from exactly −1 to exactly +1 and
otherwise adds +1 to each rate; slow-down jumps from exactly +1 to exactly
−1 and otherwise subtracts 1 (so rate 3 becomes 2); both update the speed
readout to `Speed x {rate}` for the new rate. -/
theorem speed_controls_boundary_jumps :
    (∀ st : HandlerState, ∀ k ∈ allAnimationKeys,
        (getCurrentSpeed st = -1 → (speedUp st).rates k = 1) ∧
        (getCurrentSpeed st ≠ -1 → (speedUp st).rates k = st.rates k + 1) ∧
        (getCurrentSpeed st = 1 → (slowDown st).rates k = -1) ∧
        (getCurrentSpeed st ≠ 1 → (slowDown st).rates k = st.rates k - 1)) ∧
    (∀ st : HandlerState,
        (speedUp st).speedText = speedReadout ((speedUp st).rates "sunDay") ∧
        (slowDown st).speedText = speedReadout ((slowDown st).rates "sunDay")) := by
  constructor
  · intro st k hk
    refine ⟨fun h => ?_, fun h => ?_, fun h => ?_, fun h => ?_⟩
    · simp [speedUp, h, updateSpeedDisplay, setAllPlayRates, hk]
    · simp [speedUp, h, updateSpeedDisplay, adjustAllPlayRates, hk]
    · simp [slowDown, h, updateSpeedDisplay, setAllPlayRates, hk]
    · simp [slowDown, h, updateSpeedDisplay, adjustAllPlayRates, hk,
        sub_eq_add_neg]
  · intro st
    constructor
    · by_cases h : getCurrentSpeed st = -1 <;>
        simp [speedUp, h, updateSpeedDisplay, getCurrentSpeed,
          setAllPlayRates, adjustAllPlayRates]
    · by_cases h : getCurrentSpeed st = 1 <;>
        simp [slowDown, h, updateSpeedDisplay, getCurrentSpeed,
          setAllPlayRates, adjustAllPlayRates]

/-- Claim C5: for any prior play-rate assignment, the hidden unlimit action
adds exactly 100 to each of `earthOrbit`, `earthDay`, `moonOrbit`,
`moonDay`, and leaves every other animation's rate unchanged. -/
theorem unlimit_adds_hundred_to_earth_moon_only :
    ∀ (st : HandlerState) (k : String),
      (k ∈ unlimitKeys → (unlimit st).rates k = st.rates k + 100) ∧
      (k ∉ unlimitKeys → (unlimit st).rates k = st.rates k) ∧
      unlimitKeys = ["earthOrbit", "earthDay", "moonOrbit", "moonDay"] := by
  intro st k
  refine ⟨fun h => ?_, fun h => ?_, rfl⟩
  · simp [unlimit, h]
  · simp [unlimit, h]

/-! ### CelestialBody loader (`CelestialBody.py`) -/

/-- Outcome of `CelestialBody._load_moon` for one moon config: `loaded`
(parent found with an orbit root), `skipped` (the source's graceful branch:
parent name not in `self.planets`, error printed, `return`), or `crashed`
(parent loaded but `get_orbit_root()` returned `None`, so
`parent_orbit.attachNewNode(...)` raises `AttributeError`). -/
inductive MoonLoadResult
  | loaded
  | skipped
  | crashed
deriving DecidableEq

/-- The loader state built by `CelestialBody.loadAllCelestialBodys`:
the sequence of body names in load order, a fresh-id counter for created
scene nodes, the created scene nodes as (id, node name, parent id) with the
scene root `render` as id 0, and the `self.planets` dict reduced to each
loaded planet's `orbit_root` (`none` when the planet has no orbit node). -/
structure LoadState where
  order : List String
  nextId : ℕ
  nodes : List (ℕ × String × ℕ)
  planetOrbitRoots : List (String × Option ℕ)

/-- The loader state before any body is loaded. -/
def initLoadState : LoadState :=
  { order := [], nextId := 1, nodes := [], planetOrbitRoots := [] }

/-- `Planet.load()`: when `config.get("has_orbit", True) and
config["orbit_au"] > 0`, `_setup_orbit` attaches the node
`orbit_root_<name>` to `parent_node` (or to `render` when `parent_node` is
`None`) and the planet's `orbit_root` is that node; otherwise the model
goes straight under `render` and `orbit_root` stays `None`. -/
def planetLoad (st : LoadState) (cfg : PlanetSpec) (parentNode : Option ℕ) :
    LoadState :=
  let n := planetName cfg
  if cfg.has_orbit.getD true = true ∧ cfg.orbit_au.getD 0 > 0 then
    { order := st.order ++ [n],
      nextId := st.nextId + 1,
      nodes := st.nodes ++ [(st.nextId, "orbit_root_" ++ n, parentNode.getD 0)],
      planetOrbitRoots := st.planetOrbitRoots ++ [(n, some st.nextId)] }
  else
    { st with
      order := st.order ++ [n],
      planetOrbitRoots := st.planetOrbitRoots ++ [(n, none)] }

/-- `CelestialBody._load_planet(config)`: a top-level body loads with no
parent node. -/
def loadPlanet (st : LoadState) (cfg : PlanetSpec) : LoadState :=
  planetLoad st cfg none

/-- `CelestialBody._load_moon(config)`.  Parent missing from
`self.planets` → graceful skip.  Parent present with `orbit_root = None` →
`parent_orbit.attachNewNode` raises (`crashed`; state unchanged).
Otherwise the moon's outer orbit node attaches to the parent's orbit root
and `Planet.load` runs with that node as `parent_node`. -/
def loadMoon (st : LoadState) (cfg : PlanetSpec) : LoadState × MoonLoadResult :=
  match List.lookup (cfg.parent.getD "") st.planetOrbitRoots with
  | none => (st, MoonLoadResult.skipped)
  | some none => (st, MoonLoadResult.crashed)
  | some (some parentOrbitId) =>
    let n := planetName cfg
    let st1 : LoadState :=
      { st with
        nextId := st.nextId + 1,
        nodes := st.nodes ++ [(st.nextId, "orbit_root_" ++ n, parentOrbitId)] }
    (planetLoad st1 cfg (some st.nextId), MoonLoadResult.loaded)

/-- `CelestialBody.loadAllCelestialBodys()`: first pass over every config
without a `parent` key, second pass over every config with one; the second
component records each moon's load outcome in pass order. -/
def loadAllCelestialBodys (ps : List PlanetSpec) :
    LoadState × List (String × MoonLoadResult) :=
  let st1 := ps.foldl
    (fun st cfg => if cfg.parent.isNone then loadPlanet st cfg else st)
    initLoadState
  ps.foldl
    (fun acc cfg =>
      if cfg.parent.isSome then
        let r := loadMoon acc.1 cfg
        (r.1, acc.2 ++ [(planetName cfg, r.2)])
      else acc)
    (st1, [])

/-- The parent id of a scene node in the created-node list. -/
def nodeParent (nodes : List (ℕ × String × ℕ)) (i : ℕ) : Option ℕ :=
  (nodes.find? (fun e => e.1 == i)).map (fun e => e.2.2)

/-- The chain of ancestor node ids of a node, oldest last (id 0 is the
scene root `render`); `fuel` bounds the walk. -/
def ancestorsFrom (nodes : List (ℕ × String × ℕ)) : ℕ → ℕ → List ℕ
  | 0, _ => []
  | fuel + 1, i =>
    match nodeParent nodes i with
    | none => []
    | some par => par :: ancestorsFrom nodes fuel par

/-- Claim C4: loading the built-in seven-body table loads the six specs
without a `parent` field in the first pass (in list order) and the moon in
the second pass, and the moon's orbit-root node (id 7) is a descendant of
earth's orbit-root node (id 3) — its ancestor chain passes through earth's
orbit root — and is not a direct child of the scene root (id 0). -/
theorem builtin_load_order_and_moon_hierarchy :
    (loadAllCelestialBodys PLANETS).1.order =
      ["sun", "mercury", "venus", "earth", "mars", "jupiter", "moon"] ∧
    (loadAllCelestialBodys PLANETS).2 = [("moon", MoonLoadResult.loaded)] ∧
    List.lookup "moon" (loadAllCelestialBodys PLANETS).1.planetOrbitRoots =
      some (some 7) ∧
    List.lookup "earth" (loadAllCelestialBodys PLANETS).1.planetOrbitRoots =
      some (some 3) ∧
    3 ∈ ancestorsFrom (loadAllCelestialBodys PLANETS).1.nodes
        ((loadAllCelestialBodys PLANETS).1.nodes.length + 1) 7 ∧
    nodeParent (loadAllCelestialBodys PLANETS).1.nodes 7 ≠ some 0 := by
  decide

/-- The sun entry of the built-in table, standalone. -/
def starSpec : PlanetSpec :=
  { name := some "sun", orbit_au := some 0, size_scale := some 2,
    year_factor := some 0, day_factor := some 20,
    texture := some "sun_1k_tex.jpg", has_orbit := some false }

/-- A moon parented to the sun: `validate_planet_configuration` accepts it
(the parent appears earlier), but the sun has no orbit-root node. -/
def sunMoonSpec : PlanetSpec :=
  { name := some "helia", orbit_au := some (mkRat 1 10),
    size_scale := some (mkRat 1 10), year_factor := some 1,
    day_factor := some 1, texture := some "helia_1k_tex.jpg",
    has_orbit := some true, parent := some "sun" }

/-- A registry whose only moon orbits the orbit-less star. -/
def sunMoonRegistry : List PlanetSpec := [starSpec, sunMoonSpec]

/-- Claim C10: in the moon load pass only a parent absent from the
loaded-planets map is skipped gracefully; a parent that was loaded without
an orbit-root node (here: a moon parented to the sun) falls outside the
graceful branch and the attach on `None` fails — even though validation
accepts such a registry. -/
theorem moon_load_graceful_only_for_missing_parent :
    (∀ (st : LoadState) (cfg : PlanetSpec),
        (loadMoon st cfg).2 = MoonLoadResult.skipped ↔
          List.lookup (cfg.parent.getD "") st.planetOrbitRoots = none) ∧
    (∀ (st : LoadState) (cfg : PlanetSpec),
        (loadMoon st cfg).2 = MoonLoadResult.crashed ↔
          List.lookup (cfg.parent.getD "") st.planetOrbitRoots = some none) ∧
    validatePlanets sunMoonRegistry = Except.ok true ∧
    (loadAllCelestialBodys sunMoonRegistry).2 =
      [("helia", MoonLoadResult.crashed)] := by
  refine ⟨?_, ?_, ?_, ?_⟩
  · intro st cfg
    unfold loadMoon
    cases h : List.lookup (cfg.parent.getD "") st.planetOrbitRoots with
    | none => simp [h]
    | some o => cases o <;> simp [h]
  · intro st cfg
    unfold loadMoon
    cases h : List.lookup (cfg.parent.getD "") st.planetOrbitRoots with
    | none => simp [h]
    | some o => cases o <;> simp [h]
  · decide
  · decide

/-! ### Procedural textures (`ProceduralTextures.py`) -/

/-- A `PerlinNoise` instance, reduced to its doubled permutation table
(`self.p`), read as a function on indices; the shuffle that fills it is
runtime randomness, so the table is arbitrary here. -/
structure PerlinNoise where
  p : ℕ → ℕ

/-- `PerlinNoise.fade(t) = t*t*t*(t*(t*6-15)+10)`. -/
def fade (t : ℚ) : ℚ := t * t * t * (t * (t * 6 - 15) + 10)

/-- `PerlinNoise.lerp(t, a, b) = a + t*(b-a)`. -/
def lerp (t a b : ℚ) : ℚ := a + t * (b - a)

/-- `PerlinNoise.grad(hash_val, x, y)`: 2-bit hash picks among the four
axis-aligned gradients. -/
def grad (h : ℕ) (x y : ℚ) : ℚ :=
  let h2 := h &&& 3
  let u := if h2 < 2 then x else y
  let v := if h2 < 2 then y else x
  (if h2 &&& 1 = 0 then u else -u) + (if h2 &&& 2 = 0 then v else -v)

/-- `PerlinNoise.noise(x, y)`: 2D gradient noise.  `int(np.floor(x)) & 255`
is `(⌊x⌋ % 256).toNat` (Python's `&` on a negative int is arithmetic mod). -/
def noise (pn : PerlinNoise) (x y : ℚ) : ℚ :=
  let xi : ℕ := ((⌊x⌋ : ℤ) % 256).toNat
  let yi : ℕ := ((⌊y⌋ : ℤ) % 256).toNat
  let xf : ℚ := x - (⌊x⌋ : ℤ)
  let yf : ℚ := y - (⌊y⌋ : ℤ)
  let u := fade xf
  let v := fade yf
  let aa := pn.p (pn.p xi + yi)
  let ab := pn.p (pn.p xi + yi + 1)
  let ba := pn.p (pn.p (xi + 1) + yi)
  let bb := pn.p (pn.p (xi + 1) + yi + 1)
  let x1 := lerp u (grad aa xf yf) (grad ba (xf - 1) yf)
  let x2 := lerp u (grad ab xf (yf - 1)) (grad bb (xf - 1) (yf - 1))
  lerp v x1 x2

/-- The loop of `PerlinNoise.fbm`, unrolled back to front: given the
octave count and the current amplitude and frequency, returns the pair
(total, max_value). -/
def fbmAux (pn : PerlinNoise) (x y persistence lacunarity : ℚ) :
    ℕ → ℚ → ℚ → ℚ × ℚ
  | 0, _, _ => (0, 0)
  | n + 1, amplitude, frequency =>
    let rest := fbmAux pn x y persistence lacunarity n
      (amplitude * persistence) (frequency * lacunarity)
    (noise pn (x * frequency) (y * frequency) * amplitude + rest.1,
      amplitude + rest.2)

/-- `PerlinNoise.fbm(x, y, octaves, persistence, lacunarity)`: layered
noise, normalized by the amplitude sum. -/
def fbm (pn : PerlinNoise) (x y : ℚ) (octaves : ℕ)
    (persistence lacunarity : ℚ) : ℚ :=
  let acc := fbmAux pn x y persistence lacunarity octaves 1 1
  acc.1 / acc.2

/-- Claim C7: `fbm` with `octaves = 1` equals a single `noise(x, y)` call
for every coordinate pair and any persistence and lacunarity: the one loop
iteration runs at amplitude 1 and frequency 1 and the normalization divides
by 1. -/
theorem fbm_one_octave_eq_noise :
    ∀ (pn : PerlinNoise) (x y persistence lacunarity : ℚ),
      fbm pn x y 1 persistence lacunarity = noise pn x y := by
  intro pn x y persistence lacunarity
  simp [fbm, fbmAux]

/-- One crater pass of `generate_rocky_texture` (loop index `i` of 5):
a single noise sample at the offset coordinates contributes
`(value - 0.7) * 3` when above the `0.7` threshold and `0` otherwise.
The source's `0.3`, `0.7` are `mkRat 3 10`, `mkRat 7 10`. -/
def craterContribution (pn : PerlinNoise) (sx sy : ℚ) (i : ℕ) : ℚ :=
  let cp := noise pn ((sx + i * mkRat 3 10) * 8) ((sy + i * mkRat 3 10) * 8)
  if cp > mkRat 7 10 then (cp - mkRat 7 10) * 3 else 0

/-- The accumulated `craters` value of `generate_rocky_texture`: five
crater passes summed. -/
def rockyCraters (pn : PerlinNoise) (sx sy : ℚ) : ℚ :=
  (List.range 5).foldl (fun acc i => acc + craterContribution pn sx sy i) 0

/-- The `terrain` layer of `generate_rocky_texture`:
`fbm(sx*10, sy*10, octaves=6, persistence=0.5)`. -/
def rockyTerrain (pn : PerlinNoise) (sx sy : ℚ) : ℚ :=
  fbm pn (sx * 10) (sy * 10) 6 (mkRat 5 10) 2

/-- The `detail` layer of `generate_rocky_texture`:
`fbm(sx*25, sy*25, octaves=4, persistence=0.4)`. -/
def rockyDetail (pn : PerlinNoise) (sx sy : ℚ) : ℚ :=
  fbm pn (sx * 25) (sy * 25) 4 (mkRat 4 10) 2

/-- The `elevation` of `generate_rocky_texture`:
`terrain*0.6 + detail*0.2 - craters*0.4`. -/
def rockyElevation (pn : PerlinNoise) (sx sy : ℚ) : ℚ :=
  rockyTerrain pn sx sy * mkRat 6 10 + rockyDetail pn sx sy * mkRat 2 10 -
    rockyCraters pn sx sy * mkRat 4 10

/-- Claim C8: every crater pass contributes a non-negative amount, the
accumulated crater term is non-negative, and hence the rocky elevation
never exceeds the non-cratered baseline `terrain*0.6 + detail*0.2` at any
sample point. -/
theorem rocky_craters_only_lower_elevation :
    ∀ (pn : PerlinNoise) (sx sy : ℚ),
      (∀ i : ℕ, 0 ≤ craterContribution pn sx sy i) ∧
      0 ≤ rockyCraters pn sx sy ∧
      rockyElevation pn sx sy ≤
        rockyTerrain pn sx sy * mkRat 6 10 + rockyDetail pn sx sy * mkRat 2 10 := by
  intro pn sx sy
  have hterm : ∀ i : ℕ, 0 ≤ craterContribution pn sx sy i := by
    intro i
    unfold craterContribution
    dsimp only
    split_ifs with h
    · exact mul_nonneg (le_of_lt (sub_pos.mpr h)) (by norm_num)
    · exact le_refl 0
  have hsum : 0 ≤ rockyCraters pn sx sy := by
    have hr : List.range 5 = [0, 1, 2, 3, 4] := rfl
    unfold rockyCraters
    rw [hr]
    simp only [List.foldl]
    have h0 := hterm 0
    have h1 := hterm 1
    have h2 := hterm 2
    have h3 := hterm 3
    have h4 := hterm 4
    linarith
  refine ⟨hterm, hsum, ?_⟩
  unfold rockyElevation
  have hcr : 0 ≤ rockyCraters pn sx sy * mkRat 4 10 :=
    mul_nonneg hsum (by decide)
  linarith

/-- The default-seed computation of
`ProceduralTextures.generate_texture_for_planet` when `seed is None`:
`hash(planet_name.lower()) % 1000000`.  CPython's built-in `hash` on `str`
is salted per process (hash randomization), so the run's hash function is a
parameter of the model: one process, one `pyHash`. -/
def defaultSeed (pyHash : String → ℤ) (planet_name : String) : ℤ :=
  pyHash (strToLower planet_name) % 1000000

/-- Claim C6 (divergence exhibit): the default seed is a stable function of
the lowercased body name only within one process — under one hash function
the same name (in any case) gives the same seed — but two processes whose
`str` hash functions differ on the name (the CPython default, with hash
randomization) compute different seeds, so the texture is not stable across
runs. -/
theorem default_seed_depends_on_process_hash :
    defaultSeed (fun s => (s.length : ℤ) + 7) "Earth" =
      defaultSeed (fun s => (s.length : ℤ) + 7) "EARTH" ∧
    defaultSeed (fun _ => 12345) "earth" ≠
      defaultSeed (fun _ => 654321) "earth" := by
  constructor
  · decide
  · decide

end SolarSystem
